import Mathlib

/-
Shallow embedding of django-loginas (loginas/utils.py) for verification.

The module under verification is a thin orchestration layer over Django
primitives.  We embed the module's four functions faithfully, modelling the
Django environment they call into as explicit state and parameters:

* the request's session is an association list from string keys to session
  values;
* Django's TimestampSigner is modelled abstractly: a signed token is a pair
  of the signed string value and the signing timestamp (the cryptographic
  wire format is irrelevant to the module's logic; a token that is not a
  well-formed signed value fails unsigning with a bad-signature error, a
  well-formed one fails with an expired error when too old, exactly as
  django.core.signing behaves at this interface);
* django.contrib.auth.login / logout are modelled on the state: login
  flushes the session when a different user id is already recorded (else
  cycles the key, preserving data), records the authenticated user id and
  backend in the session, sets request.user, and notifies the
  user_logged_in signal (which updates last_login when the
  update_last_login receiver is connected); logout flushes the session and
  installs the anonymous user;
* Python exceptions are an explicit error channel: the functions return a
  pair of an optional exception and the final state, since a propagating
  Python exception leaves all prior mutations of the world in place;
* the loginas settings module (not part of the sources under verification)
  is a parameter record `Config`, so every theorem is parametric in the
  configured values rather than tied to defaults.
-/

namespace LoginAs

/-- A Django user object as this module sees it: a primary key (None for the
anonymous user), the username field value, and the optional `backend`
attribute that django.contrib.auth.login requires. -/
structure User where
  pk : Option Nat
  username : String
  backend : Option String
deriving Repr, DecidableEq

/-- The AnonymousUser installed on a request by logout: its pk is None. -/
def anonymousUser : User := { pk := none, username := "", backend := none }

/-- Django model equality (Model.eq): two model instances are equal when both
have a primary key and the keys agree; an instance with pk None is only equal
to itself (object identity), which value semantics renders as false for the
fresh objects returned by backend.get_user. -/
def usersEq (a b : User) : Bool :=
  match a.pk, b.pk with
  | some x, some y => x == y
  | _, _ => false

/-- An authentication backend from AUTHENTICATION_BACKENDS: its dotted-path
name and, when the backend object has a get_user method (hasattr check in
the source), that method as a lookup from a user id. -/
structure Backend where
  name : String
  getUser : Option (Option Nat → Option User)

/-- A value stored in the session: either a plain string, or a token produced
by TimestampSigner.sign, modelled as the signed string plus the timestamp. -/
inductive SessVal where
  | str (s : String)
  | signed (value : String) (ts : Nat)
deriving Repr, DecidableEq

/-- The request session: an association list from keys to values. -/
abbrev Session := List (String × SessVal)

/-- Lookup of a session key (request.session.get / item access). -/
def sget : Session → String → Option SessVal
  | [], _ => none
  | (k', v) :: rest, k => if k' == k then some v else sget rest k

/-- Deletion of a session key (del request.session[k]). -/
def serase : Session → String → Session
  | [], _ => []
  | (k', v) :: rest, k => if k' == k then serase rest k else (k', v) :: serase rest k

/-- Assignment to a session key. -/
def sinsert (s : Session) (k : String) (v : SessVal) : Session :=
  (k, v) :: serase s k

/-- Membership test (k in request.session). -/
def scontains (s : Session) (k : String) : Bool :=
  (sget s k).isSome

/-- Python truthiness of a session value: an empty string is falsy, any
other string and any signed token (whose string form is never empty) is
truthy. -/
def truthyVal : SessVal → Bool
  | .str s => !s.isEmpty
  | .signed _ _ => true

/-- force_str applied to a user primary key, as Signer.sign and the ORM see
it: None becomes the string "None", a number its decimal form. -/
def pkStr : Option Nat → String
  | none => "None"
  | some n => toString n

/-- Python truthiness of an optional primary key (the `if original_user_pk:`
guard): None and 0 are falsy. -/
def truthyPk : Option Nat → Bool
  | none => false
  | some n => n != 0

/-- Errors raised by TimestampSigner.unsign: SignatureExpired (a valid
signature older than max_age) or BadSignature (a value that is not a valid
signed token). -/
inductive SigErr where
  | expired
  | bad
deriving Repr, DecidableEq

/-- TimestampSigner.sign of a user primary key at the current time. -/
def signPk (pk : Option Nat) (now : Nat) : SessVal :=
  .signed (pkStr pk) now

/-- TimestampSigner.unsign with a max_age, at the current time: a signed
token yields its value unless its age exceeds max_age; anything else fails
with BadSignature. -/
def unsign (v : SessVal) (maxAge now : Nat) : Except SigErr String :=
  match v with
  | .signed value ts => if now - ts > maxAge then .error .expired else .ok value
  | .str _ => .error .bad

/-- The admin audit log action_flag CHANGE. -/
def CHANGE : Nat := 2

/-- An admin LogEntry row as created by LogEntry.objects.log_action. -/
structure LogEntry where
  user_id : Nat
  content_type_id : Nat
  object_id : Option Nat
  object_repr : String
  change_message : String
  action_flag : Nat
deriving Repr, DecidableEq

/-- Message levels used by the module (messages.warning / messages.info). -/
inductive MsgLevel where
  | warning
  | info
deriving Repr, DecidableEq

/-- A message queued through the messages framework. -/
structure Msg where
  level : MsgLevel
  text : String
  tags : String
deriving Repr, DecidableEq

/-- The loginas settings (loginas/settings.py is configuration, so it is a
parameter record): the session flag key, the UPDATE_LAST_LOGIN toggle, the
signed-flag timeout in days, the two message templates as functions of the
username, and the extra message tags. -/
structure Config where
  sessionFlag : String
  updateLastLogin : Bool
  sessionDays : Nat
  msgSwitch : String → String
  msgRevert : String → String
  extraTags : String

/-- The Django environment the module calls into: the configured
authentication backends, the user table lookup by primary-key string
(get_user_model().objects.get), and the content type id of the user model. -/
structure Env where
  backends : List Backend
  getUserByPk : String → Option User
  contentTypeId : Nat

/-- The observable world state threaded through the module: the request's
session and user, the audit log table, the queued messages, the two possible
registrations of the update_last_login receiver on the user_logged_in signal
(plain, and under dispatch_uid "update_last_login"), and the record of users
whose last_login was updated by the signal. -/
structure State where
  session : Session
  user : User
  logEntries : List LogEntry
  msgs : List Msg
  connPlain : Bool
  connUid : Bool
  lastLoginUpdated : List (Option Nat)
deriving Repr, DecidableEq

/-- Python exceptions that can propagate out of the module's functions. -/
inductive PyExc where
  | improperlyConfigured
  | doesNotExist
  | badSignature
deriving Repr, DecidableEq

/-- The Django session key recording the authenticated user id. -/
def authUserKey : String := "_auth_user_id"

/-- The Django session key recording the authentication backend. -/
def backendSessionKey : String := "_auth_user_backend"

/-- django.contrib.auth.login(request, user) with the user's resolved
backend: flush the session when it records a different user id (else the
key is cycled, preserving data), store the user id and backend, install the
user on the request, and send user_logged_in, which updates last_login when
either registration of the update_last_login receiver is connected. -/
def django_login (user : User) (backendName : String) (st : State) : State :=
  let s :=
    match sget st.session authUserKey with
    | some v => if v == SessVal.str (pkStr user.pk) then st.session else []
    | none => st.session
  let s := sinsert (sinsert s authUserKey (.str (pkStr user.pk))) backendSessionKey (.str backendName)
  { st with
    session := s
    user := user
    lastLoginUpdated :=
      if st.connPlain || st.connUid then user.pk :: st.lastLoginUpdated
      else st.lastLoginUpdated }

/-- django.contrib.auth.logout(request): flush the session and install the
anonymous user. -/
def django_logout (st : State) : State :=
  { st with session := [], user := anonymousUser }

/-- messages.warning / messages.info: append a message. -/
def addMsg (level : MsgLevel) (text tags : String) (st : State) : State :=
  { st with msgs := st.msgs ++ [{ level := level, text := text, tags := tags }] }

/-- no_update_last_login context manager around a body: disconnect the plain
registration of update_last_login (recording whether it was connected);
only when it was not, also disconnect the dispatch_uid registration (the
Python `and` short-circuits); run the body; then restore whichever
registration was removed. -/
def no_update_last_login (body : State → State) (st : State) : State :=
  let was_connected := st.connPlain
  let st1 := { st with connPlain := false }
  let was_connected_id := !was_connected && st1.connUid
  let st2 := if !was_connected then { st1 with connUid := false } else st1
  let st3 := body st2
  if was_connected then { st3 with connPlain := true }
  else if was_connected_id then { st3 with connUid := true }
  else st3

/-- Suitability test for one backend in the search loop of login_as: the
backend must expose get_user (else it is skipped), and loading the target's
primary key must return a user equal to the target. -/
def backendSuits (u : User) (b : Backend) : Bool :=
  match b.getUser with
  | none => false
  | some f =>
    match f u.pk with
    | none => false
    | some u2 => usersEq u u2

/-- The backend search loop of login_as: the first configured backend that
suits the user, if any. -/
def findBackend (backends : List Backend) (u : User) : Option Backend :=
  backends.find? (backendSuits u)

/-- Backend resolution step of login_as: a user that already has a backend
attribute is kept as is; otherwise the search loop either records the found
backend's name on the user or, when none suits, the step fails (the for-else
raises ImproperlyConfigured). -/
def resolveUser (env : Env) (user : User) : Option User :=
  match user.backend with
  | some _ => some user
  | none => (findBackend env.backends user).map (fun b => { user with backend := some b.name })

/-- Audit log step of login_as: when the original user's pk is truthy, add a
LogEntry attributed to it, recording that the original user logged in as the
target. -/
def auditStep (env : Env) (origUser target : User) (st : State) : State :=
  if truthyPk origUser.pk then
    { st with logEntries :=
        { user_id := origUser.pk.getD 0
          content_type_id := env.contentTypeId
          object_id := target.pk
          object_repr := target.username
          change_message :=
            "User " ++ origUser.username ++ " logged in as " ++ target.username ++ "."
          action_flag := CHANGE } :: st.logEntries }
  else st

/-- Login step of login_as: call django_login directly when UPDATE_LAST_LOGIN
is set, else inside the no_update_last_login context manager. -/
def performLogin (cfg : Config) (u : User) (backendName : String) (st : State) : State :=
  if cfg.updateLastLogin then django_login u backendName st
  else no_update_last_login (django_login u backendName) st

/-- Flag-storing step of login_as: when store_original_user is set, queue the
switch warning message and store the signed original pk in the session under
the configured flag key. -/
def storeFlag (cfg : Config) (origPk : Option Nat) (u : User) (storeOriginalUser : Bool)
    (now : Nat) (st : State) : State :=
  if storeOriginalUser then
    let st := addMsg .warning (cfg.msgSwitch u.username) cfg.extraTags st
    { st with session := sinsert st.session cfg.sessionFlag (signPk origPk now) }
  else st

/-- login_as(user, request, store_original_user): save the original user's
pk, resolve a backend (raising ImproperlyConfigured when none suits), add
the audit log entry when the original pk is truthy, return early if the user
still has no backend attribute, perform the framework login (shielded from
update_last_login when configured off), and finally queue the warning and
store the signed original pk in the session when requested. -/
def login_as (cfg : Config) (env : Env) (user : User) (st : State)
    (storeOriginalUser : Bool) (now : Nat) : Option PyExc × State :=
  let originalUserPk := st.user.pk
  match resolveUser env user with
  | none => (some .improperlyConfigured, st)
  | some u =>
    let st1 := auditStep env st.user u st
    match u.backend with
    | none => (none, st1)
    | some backendName =>
      let st2 := performLogin cfg u backendName st1
      (none, storeFlag cfg originalUserPk u storeOriginalUser now st2)

/-- restore_original_login(request): read the session flag, log the session
out, and return when the flag was absent or falsy; otherwise unsign it with
the configured max age (swallowing SignatureExpired, propagating
BadSignature), load the original user by the recovered pk (a missing row
propagates DoesNotExist), queue the revert message, log in as the original
user without storing a flag, and delete the flag key if it is still in the
session. -/
def restore_original_login (cfg : Config) (env : Env) (now : Nat) (st : State) :
    Option PyExc × State :=
  let originalSession := sget st.session cfg.sessionFlag
  let st := django_logout st
  match originalSession with
  | none => (none, st)
  | some v =>
    if !truthyVal v then (none, st)
    else
      match unsign v (cfg.sessionDays * 86400) now with
      | .error .expired => (none, st)
      | .error .bad => (some .badSignature, st)
      | .ok pkString =>
        match env.getUserByPk pkString with
        | none => (some .doesNotExist, st)
        | some u =>
          let st := addMsg .info (cfg.msgRevert u.username) cfg.extraTags st
          match login_as cfg env u st false now with
          | (some e, st') => (some e, st')
          | (none, st') =>
            let st' :=
              if scontains st'.session cfg.sessionFlag then
                { st' with session := serase st'.session cfg.sessionFlag }
              else st'
            (none, st')

/-- is_impersonated_session(request): the request has a session attribute
(modelled by the option being some) and the session contains the configured
flag key. -/
def is_impersonated_session (cfg : Config) (session? : Option Session) : Bool :=
  match session? with
  | none => false
  | some s => scontains s cfg.sessionFlag

/-! Basic lemmas about the session operations. -/

theorem sget_serase_ne (s : Session) (k k' : String) (h : k' ≠ k) :
    sget (serase s k) k' = sget s k' := by
  induction s with
  | nil => rfl
  | cons hd tl ih =>
    cases hd with
    | mk k0 v0 =>
      by_cases hk : k0 = k
      · subst hk
        simp [serase, sget, Ne.symm h, ih]
      · by_cases hk' : k0 = k'
        · simp [serase, sget, hk, hk', h]
        · simp [serase, sget, hk, hk', ih]

theorem sget_serase_self (s : Session) (k : String) :
    sget (serase s k) k = none := by
  induction s with
  | nil => rfl
  | cons hd tl ih =>
    cases hd with
    | mk k0 v0 =>
      by_cases hk : k0 = k
      · simp [serase, hk, ih]
      · simp [serase, sget, hk, ih]

theorem sget_sinsert_self (s : Session) (k : String) (v : SessVal) :
    sget (sinsert s k v) k = some v := by
  simp [sget, sinsert]

theorem sget_sinsert_ne (s : Session) (k k' : String) (v : SessVal) (h : k' ≠ k) :
    sget (sinsert s k v) k' = sget s k' := by
  simp only [sinsert, sget, beq_iff_eq]
  rw [if_neg (fun hh => h hh.symm)]
  exact sget_serase_ne s k k' h

/-! Structural lemmas about the steps of login_as. -/

theorem performLogin_state (cfg : Config) (u : User) (b : String) (st : State) :
    (performLogin cfg u b st).session = (django_login u b st).session ∧
    (performLogin cfg u b st).user = u ∧
    (performLogin cfg u b st).logEntries = st.logEntries ∧
    (performLogin cfg u b st).msgs = st.msgs ∧
    (performLogin cfg u b st).connPlain = st.connPlain ∧
    (performLogin cfg u b st).connUid = st.connUid := by
  unfold performLogin no_update_last_login django_login
  by_cases hc : cfg.updateLastLogin <;> cases hp : st.connPlain <;> cases hu : st.connUid <;>
    simp [hc, hp, hu]

theorem storeFlag_state (cfg : Config) (o : Option Nat) (u : User) (so : Bool)
    (now : Nat) (st : State) :
    (storeFlag cfg o u so now st).session =
      (if so then sinsert st.session cfg.sessionFlag (signPk o now) else st.session) ∧
    (storeFlag cfg o u so now st).user = st.user ∧
    (storeFlag cfg o u so now st).logEntries = st.logEntries ∧
    (storeFlag cfg o u so now st).connPlain = st.connPlain ∧
    (storeFlag cfg o u so now st).connUid = st.connUid := by
  cases so <;> simp [storeFlag, addMsg]

theorem auditStep_state (env : Env) (ou t : User) (st : State) :
    (auditStep env ou t st).session = st.session ∧
    (auditStep env ou t st).user = st.user ∧
    (auditStep env ou t st).msgs = st.msgs ∧
    (auditStep env ou t st).connPlain = st.connPlain ∧
    (auditStep env ou t st).connUid = st.connUid := by
  unfold auditStep
  by_cases h : truthyPk ou.pk <;> simp [h]

theorem resolveUser_pk_username (env : Env) (user u : User)
    (h : resolveUser env user = some u) :
    u.pk = user.pk ∧ u.username = user.username := by
  unfold resolveUser at h
  cases hb : user.backend with
  | some b => rw [hb] at h; exact ⟨by cases h; rfl, by cases h; rfl⟩
  | none =>
    rw [hb] at h
    cases hf : findBackend env.backends user with
    | none => rw [hf] at h; cases h
    | some b => rw [hf] at h; cases h; exact ⟨rfl, rfl⟩

theorem resolveUser_backend_isSome (env : Env) (user u : User)
    (h : resolveUser env user = some u) :
    u.backend.isSome := by
  unfold resolveUser at h
  cases hb : user.backend with
  | some b => rw [hb] at h; cases h; simp [hb]
  | none =>
    rw [hb] at h
    cases hf : findBackend env.backends user with
    | none => rw [hf] at h; cases h
    | some b => rw [hf] at h; cases h; simp

theorem resolveUser_eq_none (env : Env) (user : User) :
    resolveUser env user = none ↔
      user.backend = none ∧ findBackend env.backends user = none := by
  unfold resolveUser
  cases hb : user.backend with
  | some b => simp
  | none => cases hf : findBackend env.backends user <;> simp [hf]

theorem login_as_ok (cfg : Config) (env : Env) (user u : User) (st : State)
    (so : Bool) (now : Nat) (b : String)
    (hres : resolveUser env user = some u) (hb : u.backend = some b) :
    login_as cfg env user st so now =
      (none, storeFlag cfg st.user.pk u so now
        (performLogin cfg u b (auditStep env st.user u st))) := by
  unfold login_as
  rw [hres]
  simp only [hb]

theorem login_as_err (cfg : Config) (env : Env) (user : User) (st : State)
    (so : Bool) (now : Nat)
    (hres : resolveUser env user = none) :
    login_as cfg env user st so now = (some .improperlyConfigured, st) := by
  unfold login_as
  rw [hres]

/-! Further helper lemmas. -/

theorem auditStep_of_truthy (env : Env) (ou t : User) (st : State)
    (h : truthyPk ou.pk = true) :
    (auditStep env ou t st).logEntries =
      ({ user_id := ou.pk.getD 0
         content_type_id := env.contentTypeId
         object_id := t.pk
         object_repr := t.username
         change_message := "User " ++ ou.username ++ " logged in as " ++ t.username ++ "."
         action_flag := CHANGE } : LogEntry) :: st.logEntries := by
  simp [auditStep, h]

theorem auditStep_of_not_truthy (env : Env) (ou t : User) (st : State)
    (h : truthyPk ou.pk = false) :
    auditStep env ou t st = st := by
  simp [auditStep, h]

theorem sget_django_login_auth (u : User) (b : String) (st : State) :
    sget (django_login u b st).session authUserKey = some (SessVal.str (pkStr u.pk)) := by
  simp only [django_login]
  rw [sget_sinsert_ne _ _ _ _ (by decide), sget_sinsert_self]

theorem login_as_stores_flag (cfg : Config) (env : Env) (user : User) (st : State)
    (now : Nat) (st' : State)
    (h : login_as cfg env user st true now = (none, st')) :
    sget st'.session cfg.sessionFlag = some (signPk st.user.pk now) := by
  cases hres : resolveUser env user with
  | none => rw [login_as_err _ _ _ _ _ _ hres] at h; simp at h
  | some u =>
    rcases Option.isSome_iff_exists.mp (resolveUser_backend_isSome env user u hres) with ⟨b, hb⟩
    rw [login_as_ok cfg env user u st true now b hres hb] at h
    have hX : storeFlag cfg st.user.pk u true now
        (performLogin cfg u b (auditStep env st.user u st)) = st' := congrArg Prod.snd h
    subst hX
    rw [(storeFlag_state cfg st.user.pk u true now _).1]
    simp only [if_true]
    exact sget_sinsert_self _ _ _

/-! Concrete sample data, used to exhibit the theorems at explicit inputs. -/

/-- Dotted path of the stock model backend in the samples. -/
def modelBackendName : String := "django.contrib.auth.backends.ModelBackend"

/-- Sample database row for user alice (pk 1), as backend.get_user returns it. -/
def aliceRow : User := { pk := some 1, username := "alice", backend := none }

/-- Sample database row for user bob (pk 2). -/
def bobRow : User := { pk := some 2, username := "bob", backend := none }

/-- Sample backend exposing get_user over the two sample rows. -/
def modelBackend : Backend :=
  { name := modelBackendName
    getUser := some (fun pk =>
      if pk == some 1 then some aliceRow
      else if pk == some 2 then some bobRow
      else none) }

/-- Sample request user alice with her backend attribute already set. -/
def alice : User := { aliceRow with backend := some modelBackendName }

/-- Sample target bob without a backend attribute. -/
def bob : User := bobRow

/-- Sample user with a pk no backend can load. -/
def carol : User := { pk := some 5, username := "carol", backend := none }

/-- Sample configuration with the default flag key and UPDATE_LAST_LOGIN off. -/
def cfgD : Config :=
  { sessionFlag := "loginas_from_user"
    updateLastLogin := false
    sessionDays := 2
    msgSwitch := fun u => "You are now logged in as " ++ u
    msgRevert := fun u => "You have been logged back in as " ++ u
    extraTags := "loginas" }

/-- Sample environment: one backend, a user table with alice and bob. -/
def envD : Env :=
  { backends := [modelBackend]
    getUserByPk := fun s =>
      if s == "1" then some aliceRow
      else if s == "2" then some bobRow
      else none
    contentTypeId := 4 }

/-- Sample request state: alice is logged in, empty session, update_last_login
registered under its dispatch uid. -/
def stD : State :=
  { session := []
    user := alice
    logEntries := []
    msgs := []
    connPlain := false
    connUid := true
    lastLoginUpdated := [] }

/-- Sample request state with an anonymous request user. -/
def anonSt : State := { stD with user := anonymousUser }

/-! Claim theorems. -/

/-- C9: is_impersonated_session is total and never raises: for a request
without a session attribute it returns false, and otherwise it returns true
exactly when the session contains the configured session-flag key. -/
theorem c9_is_impersonated_session_total (cfg : Config) (s : Session) :
    is_impersonated_session cfg none = false ∧
    is_impersonated_session cfg (some s) = scontains s cfg.sessionFlag :=
  ⟨rfl, rfl⟩

/-- C7: when the session does not contain the session flag,
restore_original_login logs the current session out and performs no
restoration: the whole call just flushes the session and installs the
anonymous user, so nobody is logged in afterwards, and the message queue is
untouched. -/
theorem c7_restore_without_flag (cfg : Config) (env : Env) (now : Nat) (st : State)
    (h : sget st.session cfg.sessionFlag = none) :
    restore_original_login cfg env now st = (none, django_logout st) ∧
    (django_logout st).user = anonymousUser ∧
    sget (django_logout st).session authUserKey = none ∧
    (django_logout st).msgs = st.msgs := by
  refine ⟨?_, rfl, rfl, rfl⟩
  unfold restore_original_login
  rw [h]

/-- C7 witness: the theorem at the sample state, whose session is empty. -/
theorem c7_witness :
    sget stD.session cfgD.sessionFlag = none ∧
    restore_original_login cfgD envD 10 stD = (none, django_logout stD) :=
  ⟨rfl, (c7_restore_without_flag cfgD envD 10 stD rfl).1⟩

/-- C8: atomicity on failure: when login_as raises ImproperlyConfigured, the
observable state is exactly the state before the call, so no audit entry,
no login and no session flag have been produced. -/
theorem c8_atomic_on_error (cfg : Config) (env : Env) (user : User) (st : State)
    (so : Bool) (now : Nat) (st' : State)
    (h : login_as cfg env user st so now = (some PyExc.improperlyConfigured, st')) :
    st' = st := by
  cases hres : resolveUser env user with
  | none =>
    rw [login_as_err _ _ _ _ _ _ hres] at h
    exact (congrArg Prod.snd h).symm
  | some u =>
    rcases Option.isSome_iff_exists.mp (resolveUser_backend_isSome env user u hres) with ⟨b, hb⟩
    rw [login_as_ok cfg env user u st so now b hres hb] at h
    simp at h

/-- C8 witness: carol has no backend and no configured backend suits her, so
login_as fails on the sample state and leaves it untouched. -/
theorem c8_witness :
    login_as cfgD envD carol stD true 3 = (some PyExc.improperlyConfigured, stD) ∧
    stD = stD :=
  ⟨by rfl, c8_atomic_on_error cfgD envD carol stD true 3 stD (by rfl)⟩

/-- C10: with the update-last-login feature disabled, a completed login_as
leaves both possible registrations of the update_last_login receiver on the
user_logged_in signal exactly as they were before the call. -/
theorem c10_conn_preserved (cfg : Config) (env : Env) (user : User) (st : State)
    (so : Bool) (now : Nat) (st' : State)
    (_hupd : cfg.updateLastLogin = false)
    (h : login_as cfg env user st so now = (none, st')) :
    st'.connPlain = st.connPlain ∧ st'.connUid = st.connUid := by
  cases hres : resolveUser env user with
  | none => rw [login_as_err _ _ _ _ _ _ hres] at h; simp at h
  | some u =>
    rcases Option.isSome_iff_exists.mp (resolveUser_backend_isSome env user u hres) with ⟨b, hb⟩
    rw [login_as_ok cfg env user u st so now b hres hb] at h
    have hX : storeFlag cfg st.user.pk u so now
        (performLogin cfg u b (auditStep env st.user u st)) = st' := congrArg Prod.snd h
    subst hX
    rcases storeFlag_state cfg st.user.pk u so now
      (performLogin cfg u b (auditStep env st.user u st)) with ⟨_, _, _, hc1, hc2⟩
    rw [hc1, hc2]
    rcases performLogin_state cfg u b (auditStep env st.user u st) with ⟨_, _, _, _, pc1, pc2⟩
    rw [pc1, pc2]
    rcases auditStep_state env st.user u st with ⟨_, _, _, ac1, ac2⟩
    exact ⟨ac1, ac2⟩

/-- C10 witness: the sample configuration has UPDATE_LAST_LOGIN off, the
sample state has only the dispatch-uid registration connected, and logging
in as bob preserves both registrations. -/
theorem c10_witness :
    cfgD.updateLastLogin = false ∧
    (login_as cfgD envD bob stD true 3).2.connPlain = stD.connPlain ∧
    (login_as cfgD envD bob stD true 3).2.connUid = stD.connUid :=
  ⟨rfl, c10_conn_preserved cfgD envD bob stD true 3
    (login_as cfgD envD bob stD true 3).2 rfl (by rfl)⟩

/-- C1: every call to login_as that returns without raising has authenticated
the request's session as the target user: the framework login recorded the
target's user id under the auth session key and installed the target as the
request's user. The configured flag key must differ from the framework's
auth session key, as any working deployment has it. -/
theorem c1_session_authenticated_as_target (cfg : Config) (env : Env) (user : User)
    (st : State) (so : Bool) (now : Nat) (st' : State)
    (hsane : cfg.sessionFlag ≠ authUserKey)
    (h : login_as cfg env user st so now = (none, st')) :
    sget st'.session authUserKey = some (SessVal.str (pkStr user.pk)) ∧
    st'.user.pk = user.pk := by
  cases hres : resolveUser env user with
  | none => rw [login_as_err _ _ _ _ _ _ hres] at h; simp at h
  | some u =>
    rcases Option.isSome_iff_exists.mp (resolveUser_backend_isSome env user u hres) with ⟨b, hb⟩
    rw [login_as_ok cfg env user u st so now b hres hb] at h
    have hX : storeFlag cfg st.user.pk u so now
        (performLogin cfg u b (auditStep env st.user u st)) = st' := congrArg Prod.snd h
    subst hX
    rcases storeFlag_state cfg st.user.pk u so now
      (performLogin cfg u b (auditStep env st.user u st)) with ⟨hs1, hu1, _, _, _⟩
    rcases performLogin_state cfg u b (auditStep env st.user u st) with ⟨hs2, hu2, _, _, _, _⟩
    have hpk := (resolveUser_pk_username env user u hres).1
    refine ⟨?_, by rw [hu1, hu2, hpk]⟩
    rw [hs1]
    cases so with
    | false =>
      simp only [Bool.false_eq_true, if_false]
      rw [hs2, sget_django_login_auth, hpk]
    | true =>
      simp only [if_true]
      rw [sget_sinsert_ne _ _ _ _ (Ne.symm hsane), hs2, sget_django_login_auth, hpk]

/-- C1 witness: logging in as bob from the sample state authenticates the
session as bob (pk 2). -/
theorem c1_witness :
    cfgD.sessionFlag ≠ authUserKey ∧
    sget (login_as cfgD envD bob stD true 3).2.session authUserKey =
      some (SessVal.str (pkStr bob.pk)) ∧
    (login_as cfgD envD bob stD true 3).2.user.pk = bob.pk :=
  ⟨by decide,
   c1_session_authenticated_as_target cfgD envD bob stD true 3
     (login_as cfgD envD bob stD true 3).2 (by decide) (by rfl)⟩

/-- C3: every call to login_as with store_original_user that returns without
raising stores, under the configured flag key, the pre-call request user's
primary key signed at the call's time. -/
theorem c3_flag_stores_signed_original_pk (cfg : Config) (env : Env) (user : User)
    (st : State) (now : Nat) (st' : State)
    (h : login_as cfg env user st true now = (none, st')) :
    sget st'.session cfg.sessionFlag = some (SessVal.signed (pkStr st.user.pk) now) := by
  simpa [signPk] using login_as_stores_flag cfg env user st now st' h

/-- C3 witness: after alice logs in as bob, the flag key holds alice's pk 1
signed at time 3. -/
theorem c3_witness :
    login_as cfgD envD bob stD true 3 = (none, (login_as cfgD envD bob stD true 3).2) ∧
    sget (login_as cfgD envD bob stD true 3).2.session cfgD.sessionFlag =
      some (SessVal.signed (pkStr stD.user.pk) 3) :=
  ⟨by rfl,
   c3_flag_stores_signed_original_pk cfgD envD bob stD 3
     (login_as cfgD envD bob stD true 3).2 (by rfl)⟩

/-- C6: the session flag is a signed token recording the original user's
identifier: the value login_as stores under the flag key is the original
pk signed at the login time, and unsigning that token within the configured
maximum age yields back exactly the signed pk string. -/
theorem c6_sign_unsign_round_trip (cfg : Config) (env : Env) (user : User)
    (st : State) (t1 t2 : Nat) (st' : State)
    (h : login_as cfg env user st true t1 = (none, st'))
    (hage : t2 - t1 ≤ cfg.sessionDays * 86400) :
    sget st'.session cfg.sessionFlag = some (SessVal.signed (pkStr st.user.pk) t1) ∧
    unsign (SessVal.signed (pkStr st.user.pk) t1) (cfg.sessionDays * 86400) t2 =
      Except.ok (pkStr st.user.pk) := by
  refine ⟨by simpa [signPk] using login_as_stores_flag cfg env user st t1 st' h, ?_⟩
  have hn : ¬ t2 - t1 > cfg.sessionDays * 86400 := by omega
  simp [unsign, hn]

/-- C6 witness: the token signed at time 3 unsigns to alice's pk string at
time 100, well within the two-day timeout of the sample configuration. -/
theorem c6_witness :
    login_as cfgD envD bob stD true 3 = (none, (login_as cfgD envD bob stD true 3).2) ∧
    (100 : Nat) - 3 ≤ cfgD.sessionDays * 86400 ∧
    unsign (SessVal.signed (pkStr stD.user.pk) 3) (cfgD.sessionDays * 86400) 100 =
      Except.ok (pkStr stD.user.pk) :=
  ⟨by rfl, by decide,
   (c6_sign_unsign_round_trip cfgD envD bob stD 3 100
     (login_as cfgD envD bob stD true 3).2 (by rfl) (by decide)).2⟩

/-- C4 counterexample: login_as called with an anonymous request user (pk
None) and a target that already carries a backend returns without raising,
yet records no audit log entry, refuting the unconditional reading of the
claim. -/
theorem c4_counterexample :
    (login_as cfgD envD alice anonSt true 7).1 = none ∧
    (login_as cfgD envD alice anonSt true 7).2.logEntries = anonSt.logEntries ∧
    anonSt.logEntries = [] :=
  ⟨rfl, rfl, rfl⟩

/-- C4 amended: every call to login_as that returns without raising and whose
requesting user has a truthy primary key records an audit log entry, on top
of the previous entries, noting that the requesting user logged in as the
target and attributed to the requesting user's identifier. -/
theorem c4_audit_entry_recorded (cfg : Config) (env : Env) (user : User)
    (st : State) (so : Bool) (now : Nat) (st' : State)
    (h : login_as cfg env user st so now = (none, st'))
    (ht : truthyPk st.user.pk = true) :
    st'.logEntries =
      ({ user_id := st.user.pk.getD 0
         content_type_id := env.contentTypeId
         object_id := user.pk
         object_repr := user.username
         change_message :=
           "User " ++ st.user.username ++ " logged in as " ++ user.username ++ "."
         action_flag := CHANGE } : LogEntry) :: st.logEntries := by
  cases hres : resolveUser env user with
  | none => rw [login_as_err _ _ _ _ _ _ hres] at h; simp at h
  | some u =>
    rcases Option.isSome_iff_exists.mp (resolveUser_backend_isSome env user u hres) with ⟨b, hb⟩
    rw [login_as_ok cfg env user u st so now b hres hb] at h
    have hX : storeFlag cfg st.user.pk u so now
        (performLogin cfg u b (auditStep env st.user u st)) = st' := congrArg Prod.snd h
    subst hX
    rcases resolveUser_pk_username env user u hres with ⟨hpk, hun⟩
    rw [(storeFlag_state cfg st.user.pk u so now _).2.2.1,
      (performLogin_state cfg u b _).2.2.1,
      auditStep_of_truthy env st.user u st ht, hpk, hun]

/-- C4 amended witness: alice (pk 1, truthy) logs in as bob and the audit
entry attributed to pk 1 is recorded. -/
theorem c4_witness :
    truthyPk stD.user.pk = true ∧
    (login_as cfgD envD bob stD true 3).2.logEntries =
      ({ user_id := 1
         content_type_id := envD.contentTypeId
         object_id := bob.pk
         object_repr := bob.username
         change_message := "User " ++ stD.user.username ++ " logged in as " ++ bob.username ++ "."
         action_flag := CHANGE } : LogEntry) :: stD.logEntries :=
  ⟨rfl,
   c4_audit_entry_recorded cfgD envD bob stD true 3
     (login_as cfgD envD bob stD true 3).2 (by rfl) rfl⟩

/-- C5: login_as raises ImproperlyConfigured exactly when the target has no
preset backend attribute and no configured backend exposing get_user loads
a user equal to the target from the target's pk; and when the target has no
preset backend but the search finds a suitable backend, no exception is
raised and that backend's name is recorded on the logged-in user. -/
theorem c5_backend_resolution (cfg : Config) (env : Env) (user : User)
    (st : State) (so : Bool) (now : Nat) :
    ((login_as cfg env user st so now).1 = some PyExc.improperlyConfigured ↔
      user.backend = none ∧ findBackend env.backends user = none) ∧
    (∀ b : Backend, user.backend = none → findBackend env.backends user = some b →
      (login_as cfg env user st so now).1 = none ∧
      (login_as cfg env user st so now).2.user.backend = some b.name) := by
  constructor
  · constructor
    · intro h1
      cases hres : resolveUser env user with
      | none => exact (resolveUser_eq_none env user).mp hres
      | some u =>
        rcases Option.isSome_iff_exists.mp (resolveUser_backend_isSome env user u hres) with ⟨b, hb⟩
        rw [login_as_ok cfg env user u st so now b hres hb] at h1
        simp at h1
    · rintro ⟨hb, hf⟩
      rw [login_as_err cfg env user st so now ((resolveUser_eq_none env user).mpr ⟨hb, hf⟩)]
  · intro b hb hf
    have hres : resolveUser env user = some { user with backend := some b.name } := by
      unfold resolveUser
      rw [hb, hf]
      rfl
    rw [login_as_ok cfg env user { user with backend := some b.name } st so now b.name hres rfl]
    refine ⟨rfl, ?_⟩
    rw [(storeFlag_state cfg st.user.pk _ so now _).2.1,
      (performLogin_state cfg _ b.name _).2.1]

/-- C5 witness: carol matches no backend, so login_as raises; bob has no
preset backend but the model backend loads him, so login_as succeeds and
records the model backend's name on him. -/
theorem c5_witness :
    (login_as cfgD envD carol stD true 3).1 = some PyExc.improperlyConfigured ∧
    (login_as cfgD envD bob stD true 3).1 = none ∧
    (login_as cfgD envD bob stD true 3).2.user.backend = some modelBackend.name :=
  ⟨(c5_backend_resolution cfgD envD carol stD true 3).1.mpr ⟨rfl, by rfl⟩,
   (c5_backend_resolution cfgD envD bob stD true 3).2 modelBackend rfl (by rfl)⟩

/-- C2: round trip: after a successful login_as storing the original user
(identified, as any authenticated requester is, by a primary key), calling
restore_original_login within the configured timeout succeeds, logs the
original user (as the user table returns them for that pk) back in, and
leaves no session flag, so is_impersonated_session is false afterwards.
The user table must still hold the original user and a backend must accept
them, since the code reloads and re-authenticates the original user. -/
theorem c2_round_trip (cfg : Config) (env : Env) (target origUser uRes : User)
    (st st1 : State) (t1 t2 p : Nat)
    (hsane1 : cfg.sessionFlag ≠ authUserKey)
    (hsane2 : cfg.sessionFlag ≠ backendSessionKey)
    (hlogin : login_as cfg env target st true t1 = (none, st1))
    (hpk : st.user.pk = some p)
    (hdb : env.getUserByPk (toString p) = some origUser)
    (hage : ¬ t2 - t1 > cfg.sessionDays * 86400)
    (hres : resolveUser env origUser = some uRes) :
    (restore_original_login cfg env t2 st1).1 = none ∧
    (restore_original_login cfg env t2 st1).2.user.pk = origUser.pk ∧
    scontains (restore_original_login cfg env t2 st1).2.session cfg.sessionFlag = false ∧
    is_impersonated_session cfg (some (restore_original_login cfg env t2 st1).2.session) =
      false := by
  have hflag : sget st1.session cfg.sessionFlag =
      some (SessVal.signed (toString p) t1) := by
    have hh := login_as_stores_flag cfg env target st t1 st1 hlogin
    rw [hpk] at hh
    simpa [signPk, pkStr] using hh
  rcases Option.isSome_iff_exists.mp (resolveUser_backend_isSome env origUser uRes hres)
    with ⟨b, hb⟩
  have hinner : login_as cfg env origUser
      (addMsg MsgLevel.info (cfg.msgRevert origUser.username) cfg.extraTags
        (django_logout st1)) false t2 =
      (none, performLogin cfg uRes b
        (addMsg MsgLevel.info (cfg.msgRevert origUser.username) cfg.extraTags
          (django_logout st1))) := by
    rw [login_as_ok cfg env origUser uRes _ false t2 b hres hb]
    rw [auditStep_of_not_truthy env
      (addMsg MsgLevel.info (cfg.msgRevert origUser.username) cfg.extraTags
        (django_logout st1)).user uRes
      (addMsg MsgLevel.info (cfg.msgRevert origUser.username) cfg.extraTags
        (django_logout st1)) (by rfl)]
    rfl
  have hplSession : (performLogin cfg uRes b
      (addMsg MsgLevel.info (cfg.msgRevert origUser.username) cfg.extraTags
        (django_logout st1))).session =
      sinsert (sinsert [] authUserKey (SessVal.str (pkStr uRes.pk)))
        backendSessionKey (SessVal.str b) := by
    rw [(performLogin_state cfg uRes b _).1]
    simp [django_login, addMsg, django_logout, sget]
  have hsc : scontains (performLogin cfg uRes b
      (addMsg MsgLevel.info (cfg.msgRevert origUser.username) cfg.extraTags
        (django_logout st1))).session cfg.sessionFlag = false := by
    rw [hplSession]
    simp only [scontains]
    rw [sget_sinsert_ne _ _ _ _ hsane2, sget_sinsert_ne _ _ _ _ hsane1]
    rfl
  have hrestore : restore_original_login cfg env t2 st1 =
      (none, performLogin cfg uRes b
        (addMsg MsgLevel.info (cfg.msgRevert origUser.username) cfg.extraTags
          (django_logout st1))) := by
    unfold restore_original_login
    rw [hflag]
    simp only [truthyVal, Bool.not_true, Bool.false_eq_true, if_false, unsign,
      if_neg hage, hdb, hinner, hsc]
  refine ⟨by rw [hrestore], ?_, ?_, ?_⟩
  · rw [hrestore]
    show (performLogin cfg uRes b _).user.pk = origUser.pk
    rw [(performLogin_state cfg uRes b _).2.1]
    exact (resolveUser_pk_username env origUser uRes hres).1
  · rw [hrestore]
    exact hsc
  · rw [hrestore]
    exact hsc

/-- C2 witness: alice logs in as bob at time 3; restoring at time 5 logs
alice (pk 1) back in and leaves an unimpersonated session. -/
theorem c2_witness :
    (restore_original_login cfgD envD 5 (login_as cfgD envD bob stD true 3).2).1 = none ∧
    (restore_original_login cfgD envD 5
      (login_as cfgD envD bob stD true 3).2).2.user.pk = aliceRow.pk ∧
    is_impersonated_session cfgD
      (some (restore_original_login cfgD envD 5
        (login_as cfgD envD bob stD true 3).2).2.session) = false := by
  have h := c2_round_trip cfgD envD bob aliceRow
    { aliceRow with backend := some modelBackendName } stD
    (login_as cfgD envD bob stD true 3).2 3 5 1
    (by decide) (by decide) (by rfl) rfl rfl (by decide) (by rfl)
  exact ⟨h.1, h.2.1, h.2.2.2⟩

end LoginAs
